import Mathlib

/-!
Verification development for the conversation-orchestration engine
(`ai-battle.py`, `adaptive_instructions.py`, `model_clients.py`).

The Python source is shallowly embedded: each relevant function is
translated into an executable Lean definition; Python exceptions become
`Except` values; the wall clock, the model clients and the NLP context
analyzer enter as explicit parameters.  Theorems then settle the spec's
claims against these embeddings.
-/

/-- A conversation message, `{"role": ..., "content": ...}` in the source. -/
structure Message where
  role : String
  content : String
deriving Repr, DecidableEq

/-- One iteration of the role-swap loop in
`ConversationManager.run_conversation_turn` (ai-battle.py lines 677-687):
`assistant` messages are re-emitted with role `user`, `user` messages with
role `assistant`, anything else is appended unchanged. -/
def swapMsg (m : Message) : Message :=
  if m.role == "assistant" then ⟨"user", m.content⟩
  else if m.role == "user" then ⟨"assistant", m.content⟩
  else m

/-- The `reversed_history` list built by the for-loop at
ai-battle.py lines 676-687. -/
def reversedHistory : List Message → List Message
  | [] => []
  | m :: t => swapMsg m :: reversedHistory t

/-- The constant `TOKENS_PER_TURN` from ai-battle.py line 54. -/
def TOKENS_PER_TURN : Nat := 2048

/-- The fixed instruction used by the `no-meta-prompting` branch of
`run_conversation_turn` (ai-battle.py line 661), with `TOKENS_PER_TURN`
interpolated. -/
def noMetaInstruction : String :=
  "You are a helpful assistant. Think step by step and respond to the user. RESTRICT OUTPUTS TO APPROX "
    ++ toString TOKENS_PER_TURN ++ " tokens"

/-- Observable effects of the success path of
`ConversationManager.run_conversation_turn` (ai-battle.py lines 628-737):
the history after the initial seeding check, the arguments of the single
`client.generate_response` call, whether
`client.adaptive_manager.generate_instructions` was invoked to produce the
instruction, and the message appended to `conversation_history`. -/
structure TurnView where
  seededHistory : List Message
  callRole : String
  callInstruction : String
  adaptiveInvoked : Bool
  callHistory : List Message
  callFileData : Option String
  appendedMessage : Message
deriving Repr, DecidableEq

/-- Embedding of the success path of
`ConversationManager.run_conversation_turn` (ai-battle.py lines 628-737).
`genInstr` stands for `client.adaptive_manager.generate_instructions`
(history, mode and role being the varying arguments); `response` is the
string the client returned.  Mirrors the source exactly: `mapped_role`
(lines 629-633), `prompt_level` (lines 634-638), the seeding of an empty
history with `f"{system_instruction}!"` (lines 639-642), the
`no-meta-prompting` branch (lines 658-672), the user branch with its
role-swap for `human-aiai` and the dead `role == "assistant"` overwrite
(lines 673-714), and the assistant branch (lines 715-736). -/
def runConversationTurnView (genInstr : List Message → String → String → String)
    (mode role : String) (hist : List Message) (passedInstr : String)
    (fileData : Option String) (response : String) : TurnView :=
  let mappedRole :=
    if role == "human" || role == "HUMAN" || role == "user" then "user" else "assistant"
  let promptLevel :=
    if mode == "no-meta-prompting" || mode == "default" then "no-meta-prompting" else mappedRole
  let hist0 := if hist.isEmpty then [⟨"system", passedInstr ++ "!"⟩] else hist
  if promptLevel == "no-meta-prompting" then
    { seededHistory := hist0, callRole := "assistant",
      callInstruction := noMetaInstruction, adaptiveInvoked := false,
      callHistory := hist0, callFileData := fileData,
      appendedMessage := ⟨role, response⟩ }
  else if mappedRole == "user" || mappedRole == "human" then
    let reversed0 := if mode == "human-aiai" then reversedHistory hist0 else hist0
    let reversed := if mode == "human-aiai" && role == "assistant" then hist0 else reversed0
    { seededHistory := hist0, callRole := role,
      callInstruction := genInstr reversed mode role, adaptiveInvoked := true,
      callHistory := reversed, callFileData := fileData,
      appendedMessage := ⟨role, response⟩ }
  else
    { seededHistory := hist0, callRole := "assistant",
      callInstruction := genInstr hist0 mode "assistant", adaptiveInvoked := true,
      callHistory := hist0, callFileData := fileData,
      appendedMessage := ⟨"assistant", response⟩ }

/-- Python whitespace for `str.strip()` (space, tab, newline, carriage
return, vertical tab, form feed). -/
def pyIsSpace (c : Char) : Bool :=
  c == ' ' || c == '\t' || c == '\n' || c == '\r' || c == '\x0b' || c == '\x0c'

/-- Index of the first occurrence of `sep` in a character list (the scan
underlying Python's `in` and `str.split`). -/
def findSubFrom (sep : List Char) : List Char → Option Nat
  | [] => if sep.isEmpty then some 0 else none
  | c :: t => if sep.isPrefixOf (c :: t) then some 0 else (findSubFrom sep t).map (· + 1)

/-- Fuel-driven splitting on every non-overlapping occurrence of `sep`,
left to right, as Python's `str.split(sep)` does. -/
def pySplitAux (sep : List Char) : Nat → List Char → List (List Char)
  | 0, xs => [xs]
  | n + 1, xs =>
    match findSubFrom sep xs with
    | none => [xs]
    | some i => xs.take i :: pySplitAux sep n (xs.drop (i + sep.length))

/-- Python `s.split(sep)` for a non-empty separator. -/
def pySplit (s sep : String) : List String :=
  (pySplitAux sep.toList (s.toList.length + 1) s.toList).map (fun l => ⟨l⟩)

/-- Python substring containment `sep in s`. -/
def containsSub (sep s : String) : Bool := (findSubFrom sep.toList s.toList).isSome

/-- Python `s.strip()`. -/
def pyStrip (s : String) : String :=
  ⟨((s.toList.dropWhile pyIsSpace).reverse.dropWhile pyIsSpace).reverse⟩

/-- Python exceptions relevant to the embedded code, flattened from the
hierarchy in adaptive_instructions.py lines 11-44 plus the built-ins the
sources raise. -/
inductive PyExc where
  | indexError
  | keyError (msg : String)
  | templateNotFound (msg : String)
  | templateSelection (msg : String)
  | templateFormat (msg : String)
  | contextAnalysis (msg : String)
  | valueError (msg : String)
  | adaptiveInstruction (msg : String)
  | runtimeError (msg : String)
  | attributeError (msg : String)
  | generic (etype msg : String)
deriving Repr, DecidableEq

/-- Python list indexing `xs[i]`, raising `IndexError` out of range. -/
def pyGet (xs : List String) (i : Nat) : Except PyExc String :=
  if h : i < xs.length then .ok (xs.get ⟨i, h⟩) else .error .indexError

/-- Python `s.split(sep)[1]`: the text between the first and the second
occurrence of `sep` (total version, for statements). -/
def textAfterFirst (s sep : String) : String := (pySplit s sep).getD 1 ""

/-- Python `s.split(sep)[0]`: the text before the first occurrence of `sep`
(total version, for statements). -/
def upToFirst (s sep : String) : String := (pySplit s sep).getD 0 ""

/-- The body of the topic-extraction `try` block in
`ConversationManager.run_conversation` (ai-battle.py lines 1158-1177),
with every Python list index made explicit through `pyGet`.  Note the
source splits the `Topic:` branch on the two-character literal `"\\n"`
(backslash followed by `n`), not on a newline, and the `GOAL:` branch
tests `"(" in goal_parts and ")" in goal_parts` against the whole stripped
remainder after `GOAL:`.  The inner `try/except IndexError` of lines
1169-1174 is the inner `match`. -/
def extractCoreTopicBody (p : String) : Except PyExc String :=
  if containsSub "Topic:" p then do
    let t1 ← pyGet (pySplit p "Topic:") 1
    let t2 ← pyGet (pySplit t1 "\\n") 0
    pure ("Discuss: " ++ pyStrip t2)
  else if containsSub "GOAL:" p then do
    let g0 ← pyGet (pySplit p "GOAL:") 1
    let goalParts := pyStrip g0
    if containsSub "(" goalParts && containsSub ")" goalParts then
      match (do
          let a ← pyGet (pySplit goalParts "(") 1
          let b ← pyGet (pySplit a ")") 0
          pure (pyStrip b) : Except PyExc String) with
      | .ok gt => pure ("GOAL: " ++ gt)
      | .error .indexError => pure ("GOAL: " ++ goalParts)
      | .error e => .error e
    else do
      let l ← pyGet (pySplit goalParts "\n") 0
      pure ("GOAL: " ++ pyStrip l)
  else pure (pyStrip p)

/-- Topic extraction in `ConversationManager.run_conversation`
(ai-battle.py lines 1156-1182): `core_topic` starts as the stripped
prompt, the `try` body may replace it, and the catch-all
`except (IndexError, Exception)` at line 1178 falls back to the stripped
prompt. -/
def extractCoreTopic (p : String) : String :=
  match extractCoreTopicBody p with
  | .ok t => t
  | .error _ => pyStrip p

/-- The role swap as the claim words it: `assistant` becomes `user`,
`user` becomes `assistant`, `system` passes through unchanged. -/
def swapRoleSpec (r : String) : String :=
  if r = "assistant" then "user" else if r = "user" then "assistant" else r

/-- The claim-side swapped copy of a message. -/
def swapMsgSpec (m : Message) : Message := ⟨swapRoleSpec m.role, m.content⟩

/-- The fields of the `ContextVector` consulted by `_select_template`
(adaptive_instructions.py lines 166-192).  The Python float metrics are
modelled as rationals, so `0.5` and `0.8` become `1/2` and `4/5`. -/
structure ContextVector where
  topic_evolution : List String
  semantic_coherence : Rat
  cognitive_load : Rat
  knowledge_depth : Rat
deriving Repr, DecidableEq

/-- Python `str(e)` on the embedded exceptions: the stored message. -/
def excMessage : PyExc → String
  | .indexError => "list index out of range"
  | .keyError m => m
  | .templateNotFound m => m
  | .templateSelection m => m
  | .templateFormat m => m
  | .contextAnalysis m => m
  | .valueError m => m
  | .adaptiveInstruction m => m
  | .runtimeError m => m
  | .attributeError m => m
  | .generic _ m => m

/-- Python dict membership `name in templates` over an association list. -/
def dictContains (d : List (String × String)) (k : String) : Bool :=
  d.any (fun kv => kv.fst == k)

/-- Python dict access `templates[name]`, raising `KeyError` when the key
is absent. -/
def dictGet (d : List (String × String)) (k : String) : Except PyExc String :=
  match d.find? (fun kv => kv.fst == k) with
  | some kv => .ok kv.snd
  | none => .error (.keyError k)

/-- The list `required_templates` (adaptive_instructions.py lines 152-157). -/
def requiredTemplateNames (pre : String) : List String :=
  [pre ++ "exploratory", pre ++ "structured", pre ++ "synthesis", pre ++ "critical"]

/-- The value `template_prefix` (adaptive_instructions.py line 143). -/
def templatePrefixOf (mode : String) : String :=
  if mode == "ai-ai" then "ai-ai-" else ""

/-- Body of the `try` in `AdaptiveInstructionManager._select_template`
(adaptive_instructions.py lines 145-196): `TemplateNotFoundError` when the
registry is empty or the first required key is missing, otherwise the
ordered decision over the context metrics, returning the registry entry. -/
def selectTemplateBody (templates : List (String × String)) (ctx : ContextVector)
    (mode : String) : Except PyExc String :=
  let pre := templatePrefixOf mode
  if templates.isEmpty then .error (.templateNotFound "No templates available")
  else
    match (requiredTemplateNames pre).find? (fun n => !dictContains templates n) with
    | some n => .error (.templateNotFound ("Required template not found: " ++ n))
    | none =>
      if ctx.topic_evolution.length < 2 then dictGet templates (pre ++ "exploratory")
      else if ctx.semantic_coherence < (1 : Rat)/2 then dictGet templates (pre ++ "structured")
      else if ctx.cognitive_load > (4 : Rat)/5 then dictGet templates (pre ++ "synthesis")
      else if ctx.knowledge_depth > (4 : Rat)/5 then dictGet templates (pre ++ "critical")
      else dictGet templates (pre ++ "exploratory")

/-- Embedding of `AdaptiveInstructionManager._select_template` with its own exception
wrapper (adaptive_instructions.py lines 197-202): a `KeyError` becomes a
`TemplateNotFoundError`; any other exception — in particular the
`TemplateNotFoundError`s raised inside the body, which are not
`KeyError`s — is re-wrapped as a plain `TemplateSelectionError`. -/
def selectTemplate (templates : List (String × String)) (ctx : ContextVector)
    (mode : String) : Except PyExc String :=
  match selectTemplateBody templates ctx mode with
  | .ok t => .ok t
  | .error (.keyError m) => .error (.templateNotFound ("Template not found: " ++ m))
  | .error e => .error (.templateSelection ("Error selecting template: " ++ excMessage e))

/-- The hard-coded fallback of adaptive_instructions.py line 97. -/
def helpfulFallback : String := "You are a helpful assistant. Think step by step as needed."

/-- The domain fallback of adaptive_instructions.py lines 110-114 and 137. -/
def domainFallback (domain : String) : String :=
  "You are discussing " ++ domain ++ ". Be helpful and think step by step."

/-- Embedding of `AdaptiveInstructionManager.generate_instructions`
(adaptive_instructions.py lines 66-137).  `analyze` stands for
`self.context_analyzer.analyze`, `customize` for `self._customize_template`
(which reads `self.mode` internally); both may raise.  The nested
`try/except` clauses are mirrored one by one: context-analysis failures are
wrapped as `ContextAnalysisError` (lines 83-88); a `KeyError` from
`_select_template` — the only route to `helpfulFallback` — is absorbed
(lines 93-97) while every other selection failure is re-wrapped as
`TemplateSelectionError` and re-raised by the outer handler (lines 98-101
and 126-128); customization failures return `domainFallback` (lines
104-114); a `ValueError` becomes `AdaptiveInstructionError` (lines
129-132); any other exception returns `domainFallback` (lines 133-137). -/
def generateInstructions
    (templates : List (String × String))
    (analyze : List Message → Except PyExc ContextVector)
    (customize : String → ContextVector → String → String → Except PyExc String)
    (hist : List Message) (domain : String) (selfMode : String) (role : String) :
    Except PyExc String :=
  let inner : Except PyExc String := do
    let context ← match analyze hist with
      | .ok c => .ok c
      | .error e =>
          .error (.contextAnalysis ("Error analyzing conversation context: " ++ excMessage e))
    let template ← match selectTemplate templates context selfMode with
      | .ok t => .ok t
      | .error (.keyError _) => .ok helpfulFallback
      | .error e => .error (.templateSelection ("Error selecting template: " ++ excMessage e))
    match customize template context domain role with
    | .ok instructions => .ok instructions
    | .error _ => .ok (domainFallback domain)
  match inner with
  | .ok s => .ok s
  | .error (.contextAnalysis m) => .error (.contextAnalysis m)
  | .error (.templateSelection m) => .error (.templateSelection m)
  | .error (.templateNotFound m) => .error (.templateNotFound m)
  | .error (.valueError m) => .error (.adaptiveInstruction ("Invalid input: " ++ m))
  | .error _ => .ok (domainFallback domain)

/-- The selection decision table exactly as the claim states it, producing
the key name. -/
def selectTemplateKeySpec (ctx : ContextVector) (mode : String) : String :=
  let pre := templatePrefixOf mode
  if ctx.topic_evolution.length < 2 then pre ++ "exploratory"
  else if ctx.semantic_coherence < (1 : Rat)/2 then pre ++ "structured"
  else if ctx.cognitive_load > (4 : Rat)/5 then pre ++ "synthesis"
  else if ctx.knowledge_depth > (4 : Rat)/5 then pre ++ "critical"
  else pre ++ "exploratory"

/-- Whether `s` ends with `suffix` (claim-side helper). -/
def endsWithStr (s suffix : String) : Bool := suffix.toList.isSuffixOf s.toList

/-- A raised Python exception as callers observe it: its type name and its
`str(e)` message. -/
structure PyError where
  etype : String
  msg : String
deriving Repr, DecidableEq

/-- The `fatal_connection_errors` list of
`ConversationManager.run_conversation_turn` (ai-battle.py lines 644-655). -/
def fatalConnectionErrors : List String :=
  ["Connection aborted", "Remote end closed connection without response",
   "Connection refused", "Max retries exceeded", "Read timed out",
   "API key not valid", "Authentication failed", "Quota exceeded",
   "Service unavailable"]

/-- Observable outcome of the `except Exception` handler of
`run_conversation_turn`: the messages appended to `conversation_history`,
the exception propagated to the caller (if any), and the value returned
in place of a response (if any). -/
structure TurnErrorOutcome where
  appended : List Message
  raised : Option PyError
  returned : Option String
deriving Repr, DecidableEq

/-- The `except Exception` handler of `run_conversation_turn` (ai-battle.py
lines 739-822), applied to the exception `e` raised by the client call.
When `e.msg` matches the fatal list, the handler writes the report file,
appends the `"ERROR: A fatal connection error occurred..."` system message
and raises `RuntimeError("Fatal connection error with ...")` — but that
`raise` sits inside the same `try` as the report writing, so the
`except Exception as report_e` at line 809 catches the fresh `RuntimeError`
and line 812 re-raises the ORIGINAL exception `e` instead.  For a
non-fatal error the handler appends the
`"Error with <model> (<role>): <msg>"` system message and returns
`"Error: <msg>"` without raising (lines 813-820). -/
def turnErrorHandler (model_type mapped_role : String) (e : PyError) :
    TurnErrorOutcome :=
  let isFatal := fatalConnectionErrors.any (fun f => containsSub f e.msg)
  if isFatal then
    { appended := [⟨"system",
        "ERROR: A fatal connection error occurred with " ++ model_type ++ ": " ++ e.msg⟩],
      raised := some e,
      returned := none }
  else
    { appended := [⟨"system",
        "Error with " ++ model_type ++ " (" ++ mapped_role ++ "): " ++ e.msg⟩],
      raised := none,
      returned := some ("Error: " ++ e.msg) }

/-- Result of one retry-guarded `run_conversation` block in `main`. -/
structure RetryResult where
  conversation : List Message
  attemptsMade : Nat
  sleeps : List Nat
  uncaught : Option PyError
deriving Repr, DecidableEq

/-- The `while retry_count <= max_retries` loop of `main` (ai-battle.py
lines 1796-1832): `run i` is the i-th (0-based) `manager.run_conversation`
attempt, either a finished history or a raised exception.  Only a
`RuntimeError` is caught; it is retried only when its message contains
`"Fatal connection error"` and `retry_count < max_retries = 2`, sleeping
`retry_count * 5` seconds after the increment; otherwise the degraded
two-message history is synthesized.  A non-`RuntimeError` propagates
uncaught.  The fuel starts at 3, which the loop structure never exhausts. -/
def mainRetryGo (run : Nat → Except PyError (List Message)) (p : String) :
    Nat → Nat → Nat → List Nat → RetryResult
  | 0, attemptIdx, _, sleeps => ⟨[], attemptIdx, sleeps, none⟩
  | fuel + 1, attemptIdx, rc, sleeps =>
    match run attemptIdx with
    | .ok conv => ⟨conv, attemptIdx + 1, sleeps, none⟩
    | .error e =>
      if e.etype == "RuntimeError" then
        if containsSub "Fatal connection error" e.msg && rc < 2 then
          mainRetryGo run p fuel (attemptIdx + 1) (rc + 1) (sleeps ++ [(rc + 1) * 5])
        else
          ⟨[⟨"system", p⟩,
            ⟨"system", "ERROR: " ++ e.msg ++ " - Conversation could not be completed."⟩],
           attemptIdx + 1, sleeps, none⟩
      else ⟨[], attemptIdx + 1, sleeps, some e⟩

/-- The retry block of `main` for one conversation, including the
`if not conversation` guard of ai-battle.py lines 1834-1839. -/
def mainRetryLoop (run : Nat → Except PyError (List Message)) (p : String) :
    RetryResult :=
  let r := mainRetryGo run p 3 0 0 []
  if r.uncaught.isSome then r
  else if r.conversation.isEmpty then
    { r with conversation :=
        [⟨"system", p⟩,
         ⟨"system", "ERROR: Failed to generate conversation after multiple attempts."⟩] }
  else r

/-- The spec's scenario S4 client: `run_conversation` raises
`RuntimeError("Connection aborted")` on the first two attempts (per the
swallowed-wrapper behavior of `turnErrorHandler`, the original exception
is what reaches `main`), then would succeed with a history ending in
`{assistant, "ok"}`. -/
def s4Run : Nat → Except PyError (List Message) :=
  fun i =>
    if i < 2 then .error ⟨"RuntimeError", "Connection aborted"⟩
    else .ok [⟨"system", "t"⟩, ⟨"assistant", "ok"⟩]

/-- The per-turn `(role, file_data)` arguments handed to
`run_conversation_turn` by the round loop of
`_run_conversation_with_file_data` (ai-battle.py lines 1260-1298): every
round performs a human turn (role `user`) and an AI turn (role
`assistant`), and both calls pass the same unmodified `file_data` variable
— despite the `# Only pass file data on first turn` comment at line 1277,
nothing ever clears it. -/
def fileDataArgs : Nat → Option String → List (String × Option String)
  | 0, _ => []
  | n + 1, fd => ("user", fd) :: ("assistant", fd) :: fileDataArgs n fd

/-- What evaluating `io.sleep(...)` does: the `io` module imported at
ai-battle.py line 15 is the standard-library I/O module, which has no
attribute `sleep`, so the attribute lookup raises `AttributeError` and no
sleeping ever happens. -/
def ioSleepCall (_seconds : Rat) : Except PyError Unit :=
  .error ⟨"AttributeError", "module 'io' has no attribute 'sleep'"⟩

/-- Embedding of `ConversationManager.rate_limited_request` (ai-battle.py lines
583-597) under an acquired `rate_limit_lock`: sample `current_time = t1`;
if `t1 - last_request_time < min_delay` evaluate `io.sleep(min_delay)` —
note: the argument is the full `min_delay`, not the remaining difference —
then set `last_request_time` to a fresh sample `t2`.  Returns the new
`last_request_time` and the sleeps performed, or the raised exception
(in which case line 597 is never reached and `last_request_time` stays). -/
def rateLimitedRequest (t1 t2 last min_delay : Rat) :
    Except PyError (Rat × List Rat) :=
  if t1 - last < min_delay then
    match ioSleepCall min_delay with
    | .ok _ => .ok (t2, [min_delay])
    | .error e => .error e
  else .ok (t2, [])

/-- The `min_delay` default from `ConversationManager.__init__`
(ai-battle.py line 204). -/
def defaultMinDelay : Rat := 2

/-- A Python local list variable that may alias the caller's list object:
`caller` is the content of the caller's list, `localList` the content of
the list the local variable currently refers to, and `aliased` records
whether both are the same object. -/
structure PyListVar where
  caller : List Message
  localList : List Message
  aliased : Bool
deriving Repr, DecidableEq

/-- Statement `history = history if history else []` (model_clients.py lines 459 and
622): a falsy (empty) list is replaced by a fresh empty list; a non-empty
list keeps aliasing the caller's object. -/
def reassignIfFalsy (s : PyListVar) : PyListVar :=
  if s.localList.isEmpty then { s with localList := [], aliased := false } else s

/-- Statement `history = history[-n:] if history ... else []` (model_clients.py
lines 469 and 633): Python slicing always allocates a new list, so the
local variable stops aliasing the caller's list in every case (for an
empty list the `else []` branch likewise yields a fresh list). -/
def reassignSliceLast (n : Nat) (s : PyListVar) : PyListVar :=
  { s with localList := s.localList.drop (s.localList.length - n), aliased := false }

/-- Python `history.append(m)`: mutates the list object the local variable points
to, so the caller's list changes exactly when still aliased. -/
def appendLocal (m : Message) (s : PyListVar) : PyListVar :=
  { caller := if s.aliased then s.caller ++ [m] else s.caller,
    localList := s.localList ++ [m], aliased := s.aliased }

/-- The history manipulations of `OllamaClient.generate_response`
(model_clients.py lines 622-635): rebind a falsy history, slice to the
last 5 entries, then append the system-instruction message and the user
context prompt.  No statement of the function assigns into the message
dicts themselves. -/
def ollamaHistoryOps (instr ctxPrompt : String) (s : PyListVar) : PyListVar :=
  appendLocal ⟨"user", ctxPrompt⟩
    (appendLocal ⟨"system", instr⟩ (reassignSliceLast 5 (reassignIfFalsy s)))

/-- The history manipulations of `PicoClient.generate_response`
(model_clients.py lines 459-470): rebind a falsy history, slice to the
last 8 entries, append the user context prompt. -/
def picoHistoryOps (ctxPrompt : String) (s : PyListVar) : PyListVar :=
  appendLocal ⟨"user", ctxPrompt⟩ (reassignSliceLast 8 (reassignIfFalsy s))

theorem swapMsg_eq_spec (m : Message) : swapMsg m = swapMsgSpec m := by
  unfold swapMsg swapMsgSpec swapRoleSpec
  by_cases h1 : m.role = "assistant" <;> by_cases h2 : m.role = "user" <;>
    simp [h1, h2]

theorem reversedHistory_eq_map (h : List Message) :
    reversedHistory h = h.map swapMsgSpec := by
  induction h with
  | nil => rfl
  | cons m t ih => simp [reversedHistory, ih, swapMsg_eq_spec]

/-- C1: In mode `human-aiai`, on every user turn, the history handed to the
client is a role-swapped copy of `conversation_history`: every `assistant`
message appears with role `user`, every `user` message with role
`assistant`, `system` messages pass through unchanged, contents and order
are preserved, and no message is dropped or duplicated (the history maps
message-by-message under the swap, so the swapped copy has the same
length). -/
theorem C1_roleswap_human_aiai
    (genInstr : List Message → String → String → String) (role : String)
    (hist : List Message) (passedInstr : String) (fileData : Option String)
    (response : String)
    (hrole : role = "user" ∨ role = "human" ∨ role = "HUMAN")
    (hne : hist ≠ []) :
    (runConversationTurnView genInstr "human-aiai" role hist passedInstr
        fileData response).callHistory = hist.map swapMsgSpec ∧
    (runConversationTurnView genInstr "human-aiai" role hist passedInstr
        fileData response).callHistory.length = hist.length ∧
    swapRoleSpec "assistant" = "user" ∧ swapRoleSpec "user" = "assistant" ∧
    swapRoleSpec "system" = "system" := by
  have hempty : hist.isEmpty = false := by
    cases hist with
    | nil => exact absurd rfl hne
    | cons a t => rfl
  rcases hrole with rfl | rfl | rfl <;>
    simp [runConversationTurnView, hempty, reversedHistory_eq_map] <;>
    refine ⟨by decide, by decide, by decide⟩

/-- Witness for C1 at the spec's scenario S5 history. -/
theorem C1_roleswap_human_aiai_witness :
    (runConversationTurnView (fun _ _ _ => "instr") "human-aiai" "user"
        [⟨"system", "t"⟩, ⟨"user", "A"⟩, ⟨"assistant", "B"⟩, ⟨"user", "C"⟩,
         ⟨"assistant", "D"⟩] "si" none "resp").callHistory =
      [⟨"system", "t"⟩, ⟨"assistant", "A"⟩, ⟨"user", "B"⟩, ⟨"assistant", "C"⟩,
       ⟨"user", "D"⟩] := by
  have h := C1_roleswap_human_aiai (fun _ _ _ => "instr") "user"
    [⟨"system", "t"⟩, ⟨"user", "A"⟩, ⟨"assistant", "B"⟩, ⟨"user", "C"⟩,
     ⟨"assistant", "D"⟩] "si" none "resp" (Or.inl rfl) (by decide)
  rw [h.1]
  decide

/-- C10: In mode `no-meta-prompting` (and its alias `default`),
`run_conversation_turn` invokes the client with role `assistant` and the
fixed minimal instruction
`"You are a helpful assistant. Think step by step and respond to the user.
RESTRICT OUTPUTS TO APPROX 2048 tokens"`, never consults the adaptive
instruction manager for the turn, and the appended history message keeps
the turn's original role. -/
theorem C10_no_meta_prompting_turn
    (genInstr : List Message → String → String → String) (mode role : String)
    (hist : List Message) (passedInstr : String) (fileData : Option String)
    (response : String)
    (hmode : mode = "no-meta-prompting" ∨ mode = "default") :
    (runConversationTurnView genInstr mode role hist passedInstr fileData
        response).callRole = "assistant" ∧
    (runConversationTurnView genInstr mode role hist passedInstr fileData
        response).callInstruction = noMetaInstruction ∧
    (runConversationTurnView genInstr mode role hist passedInstr fileData
        response).adaptiveInvoked = false ∧
    (runConversationTurnView genInstr mode role hist passedInstr fileData
        response).appendedMessage.role = role ∧
    noMetaInstruction =
      "You are a helpful assistant. Think step by step and respond to the user. RESTRICT OUTPUTS TO APPROX 2048 tokens" := by
  rcases hmode with rfl | rfl <;>
    exact ⟨rfl, rfl, rfl, rfl, rfl⟩

/-- Witness for C10 on a concrete turn. -/
theorem C10_no_meta_prompting_turn_witness :
    (runConversationTurnView (fun _ _ _ => "adaptive") "no-meta-prompting"
        "user" [⟨"system", "t"⟩] "si" none "resp").callRole = "assistant" ∧
    (runConversationTurnView (fun _ _ _ => "adaptive") "no-meta-prompting"
        "user" [⟨"system", "t"⟩] "si" none "resp").adaptiveInvoked = false := by
  have h := C10_no_meta_prompting_turn (fun _ _ _ => "adaptive")
    "no-meta-prompting" "user" [⟨"system", "t"⟩] "si" none "resp" (Or.inl rfl)
  exact ⟨h.1, h.2.2.1⟩

theorem pySplitAux_ne_nil (sep : List Char) (n : Nat) (xs : List Char) :
    pySplitAux sep n xs ≠ [] := by
  cases n with
  | zero => simp [pySplitAux]
  | succ m =>
    unfold pySplitAux
    cases h : findSubFrom sep xs <;> simp

theorem pySplit_ne_nil (s sep : String) : pySplit s sep ≠ [] := by
  unfold pySplit
  simp [pySplitAux_ne_nil]

theorem pySplit_length_pos (s sep : String) : 0 < (pySplit s sep).length :=
  List.length_pos.mpr (pySplit_ne_nil s sep)

theorem two_le_pySplit_length (s sep : String) (h : containsSub sep s = true) :
    2 ≤ (pySplit s sep).length := by
  unfold containsSub at h
  obtain ⟨i, hi⟩ := Option.isSome_iff_exists.mp h
  unfold pySplit pySplitAux
  rw [hi]
  have hpos := List.length_pos.mpr
    (pySplitAux_ne_nil sep.toList s.toList.length
      (s.toList.drop (i + sep.toList.length)))
  simp only [List.map_cons, List.length_cons, List.length_map]
  omega

theorem pyGet_ok (xs : List String) (i : Nat) (h : i < xs.length) :
    pyGet xs i = .ok (xs.getD i "") := by
  unfold pyGet
  rw [dif_pos h]
  congr 1
  rw [List.getD_eq_getElem xs _ h]
  simp

theorem excBindOk {ε α β : Type} (a : α) (f : α → Except ε β) :
    (Except.ok a : Except ε α) >>= f = f a := rfl

/-- C3 counterexample: on `"Topic: cats\nmore"` (a real newline after the
topic) the code yields `"Discuss: cats\nmore"`, because it splits on the
two-character literal backslash-`n`, not on the newline; the claim demands
`"Discuss: cats"`. -/
theorem C3_counterexample :
    extractCoreTopic "Topic: cats\nmore" = "Discuss: cats\nmore" ∧
    extractCoreTopic "Topic: cats\nmore" ≠ "Discuss: cats" := by
  constructor
  · rfl
  · decide

/-- C3 amended: first-match-wins extraction, with the truncation rules the
code actually implements.  If `"Topic:"` occurs, the result is
`"Discuss: "` plus the text between the first two occurrences of
`"Topic:"` truncated at the first literal backslash-`n` character pair
(not at a newline), stripped.  Else if `"GOAL:"` occurs, let `g` be the
stripped text between the first two occurrences of `"GOAL:"`: when `g`
contains `"("` and `")"` anywhere (even past a newline), the result is
`"GOAL: "` plus the stripped text between the first `"("` and the next
`")"`; otherwise `"GOAL: "` plus the stripped first line of `g`.
Otherwise the stripped prompt.  No exception path is reachable, so the
`except` fallback is dead. -/
theorem C3_topic_extraction_amended (p : String) :
    (containsSub "Topic:" p = true →
      extractCoreTopic p =
        "Discuss: " ++ pyStrip (upToFirst (textAfterFirst p "Topic:") "\\n")) ∧
    (containsSub "Topic:" p = false → containsSub "GOAL:" p = true →
      ((containsSub "(" (pyStrip (textAfterFirst p "GOAL:")) = true ∧
        containsSub ")" (pyStrip (textAfterFirst p "GOAL:")) = true) →
        extractCoreTopic p =
          "GOAL: " ++ pyStrip (upToFirst
            (textAfterFirst (pyStrip (textAfterFirst p "GOAL:")) "(") ")")) ∧
      (¬ (containsSub "(" (pyStrip (textAfterFirst p "GOAL:")) = true ∧
          containsSub ")" (pyStrip (textAfterFirst p "GOAL:")) = true) →
        extractCoreTopic p =
          "GOAL: " ++ pyStrip (upToFirst (pyStrip (textAfterFirst p "GOAL:")) "\n"))) ∧
    (containsSub "Topic:" p = false → containsSub "GOAL:" p = false →
      extractCoreTopic p = pyStrip p) := by
  refine ⟨fun ht => ?_, fun ht hg => ⟨fun hp => ?_, fun hp => ?_⟩, fun ht hg => ?_⟩
  · have h1 := pyGet_ok (pySplit p "Topic:") 1 (two_le_pySplit_length p "Topic:" ht)
    have h0 := pyGet_ok (pySplit ((pySplit p "Topic:").getD 1 "") "\\n") 0
      (pySplit_length_pos _ _)
    simp only [textAfterFirst, upToFirst]
    simp only [extractCoreTopic, extractCoreTopicBody, ht, if_true, h1, excBindOk, h0]
    rfl
  · simp only [textAfterFirst, upToFirst] at hp ⊢
    have h1 := pyGet_ok (pySplit p "GOAL:") 1 (two_le_pySplit_length p "GOAL:" hg)
    have h2 := pyGet_ok (pySplit (pyStrip ((pySplit p "GOAL:").getD 1 "")) "(") 1
      (two_le_pySplit_length _ "(" hp.1)
    have h0 := pyGet_ok
      (pySplit ((pySplit (pyStrip ((pySplit p "GOAL:").getD 1 "")) "(").getD 1 "") ")") 0
      (pySplit_length_pos _ _)
    simp only [extractCoreTopic, extractCoreTopicBody, ht, Bool.false_eq_true, if_false,
      hg, if_true, h1, excBindOk, hp.1, hp.2, Bool.and_self, h2, h0]
    rfl
  · simp only [textAfterFirst, upToFirst] at hp ⊢
    have h1 := pyGet_ok (pySplit p "GOAL:") 1 (two_le_pySplit_length p "GOAL:" hg)
    have h0 := pyGet_ok (pySplit (pyStrip ((pySplit p "GOAL:").getD 1 "")) "\n") 0
      (pySplit_length_pos _ _)
    have hcond : (containsSub "(" (pyStrip ((pySplit p "GOAL:").getD 1 "")) &&
        containsSub ")" (pyStrip ((pySplit p "GOAL:").getD 1 ""))) = false := by
      cases e1 : containsSub "(" (pyStrip ((pySplit p "GOAL:").getD 1 "")) <;>
        cases e2 : containsSub ")" (pyStrip ((pySplit p "GOAL:").getD 1 "")) <;>
          simp_all
    simp only [extractCoreTopic, extractCoreTopicBody, ht, Bool.false_eq_true, if_false,
      hg, if_true, h1, excBindOk, hcond, h0]
    rfl
  · simp only [extractCoreTopic, extractCoreTopicBody, ht, hg, Bool.false_eq_true,
      if_false]
    rfl

/-- Witness for C3 amended at concrete prompts exercising the `GOAL:`
parenthesis branch and the `Topic:` branch. -/
theorem C3_topic_extraction_amended_witness :
    extractCoreTopic "GOAL: solve (world peace) now" = "GOAL: world peace" ∧
    extractCoreTopic "Topic: cats and dogs" = "Discuss: cats and dogs" := by
  constructor
  · have h := ((C3_topic_extraction_amended "GOAL: solve (world peace) now").2.1
      (by decide) (by decide)).1 ⟨by decide, by decide⟩
    rw [h]
    decide
  · have h := (C3_topic_extraction_amended "Topic: cats and dogs").1 (by decide)
    rw [h]
    decide

theorem dictGet_ok_of_contains (d : List (String × String)) (k : String)
    (h : dictContains d k = true) : ∃ v, dictGet d k = .ok v := by
  unfold dictContains at h
  obtain ⟨kv, hmem, hk⟩ := List.any_eq_true.mp h
  have : (d.find? (fun kv => kv.fst == k)).isSome :=
    List.find?_isSome.mpr ⟨kv, hmem, hk⟩
  obtain ⟨kv2, hkv2⟩ := Option.isSome_iff_exists.mp this
  exact ⟨kv2.snd, by unfold dictGet; rw [hkv2]⟩

/-- C2: when the four required templates are present, `_select_template`
is exactly the ordered decision procedure of the claim: it returns the
registry entry of the key computed by the five-row table (with prefix
`ai-ai-` iff mode is `ai-ai`), and whenever `len(topic_evolution) < 2`
the selected template name ends in `exploratory`. -/
theorem C2_template_selection (templates : List (String × String))
    (ctx : ContextVector) (mode : String)
    (hreq : ∀ n ∈ requiredTemplateNames (templatePrefixOf mode),
      dictContains templates n = true) :
    selectTemplate templates ctx mode =
      dictGet templates (selectTemplateKeySpec ctx mode) ∧
    (ctx.topic_evolution.length < 2 →
      selectTemplateKeySpec ctx mode = templatePrefixOf mode ++ "exploratory") ∧
    (ctx.topic_evolution.length < 2 →
      endsWithStr (selectTemplateKeySpec ctx mode) "exploratory" = true) := by
  have hkeymem : selectTemplateKeySpec ctx mode ∈
      requiredTemplateNames (templatePrefixOf mode) := by
    unfold selectTemplateKeySpec requiredTemplateNames
    split_ifs <;> simp
  have hne : templates.isEmpty = false := by
    have h := hreq (templatePrefixOf mode ++ "exploratory")
      (by simp [requiredTemplateNames])
    cases templates with
    | nil => simp [dictContains] at h
    | cons a t => rfl
  have hfind : (requiredTemplateNames (templatePrefixOf mode)).find?
      (fun n => !dictContains templates n) = none := by
    rw [List.find?_eq_none]
    intro n hn
    simp [hreq n hn]
  have hbody : selectTemplateBody templates ctx mode =
      dictGet templates (selectTemplateKeySpec ctx mode) := by
    unfold selectTemplateBody selectTemplateKeySpec
    simp only [hne, Bool.false_eq_true, if_false, hfind]
    split_ifs <;> rfl
  obtain ⟨v, hv⟩ := dictGet_ok_of_contains templates _ (hreq _ hkeymem)
  refine ⟨?_, fun h => ?_, fun h => ?_⟩
  · unfold selectTemplate
    rw [hbody, hv]
  · unfold selectTemplateKeySpec
    rw [if_pos h]
  · have hkey : selectTemplateKeySpec ctx mode =
        templatePrefixOf mode ++ "exploratory" := by
      unfold selectTemplateKeySpec
      rw [if_pos h]
    rw [hkey]
    unfold templatePrefixOf
    by_cases hm : mode == "ai-ai"
    · rw [if_pos hm]
      decide
    · rw [if_neg hm]
      decide

/-- Witness for C2: a registry with the four `ai-ai-` templates, an empty
topic evolution, mode `ai-ai`. -/
theorem C2_template_selection_witness :
    selectTemplate
      [("ai-ai-exploratory", "E"), ("ai-ai-structured", "S"),
       ("ai-ai-synthesis", "Y"), ("ai-ai-critical", "C")]
      ⟨[], 1, 0, 0⟩ "ai-ai" = .ok "E" := by
  have h := C2_template_selection
    [("ai-ai-exploratory", "E"), ("ai-ai-structured", "S"),
     ("ai-ai-synthesis", "Y"), ("ai-ai-critical", "C")]
    ⟨[], 1, 0, 0⟩ "ai-ai" (by decide)
  rw [h.1]
  rfl

/-- C6: evaluating `generate_instructions` against a registry that
contains only `exploratory` (the spec's scenario S6) and against an empty
registry.  In both cases the call raises `TemplateSelectionError` instead
of returning the documented `"You are a helpful assistant. ..."` fallback:
the `except KeyError` guarding that fallback can never fire, because
`_select_template` re-wraps its `TemplateNotFoundError` (not a `KeyError`)
into a `TemplateSelectionError`, which the outer handler re-raises.  The
context analyzer and customizer succeed, so they are not the cause. -/
theorem C6_missing_template_raises :
    generateInstructions [("exploratory", "E")]
      (fun _ => .ok ⟨[], 1, 0, 0⟩) (fun t _ _ _ => .ok t)
      [] "science" "human-aiai" "user" =
      .error (.templateSelection
        "Error selecting template: Error selecting template: Required template not found: structured") ∧
    generateInstructions []
      (fun _ => .ok ⟨[], 1, 0, 0⟩) (fun t _ _ _ => .ok t)
      [] "science" "human-aiai" "user" =
      .error (.templateSelection
        "Error selecting template: Error selecting template: No templates available") := by
  exact ⟨rfl, rfl⟩

/-- C4: the retry machinery never fires.  On the spec's scenario S4 (the
client call fails with `"Connection aborted"` twice, then succeeds), the
turn's error handler matches the fatal list but re-raises the ORIGINAL
exception — the informative `RuntimeError("Fatal connection error ...")`
is swallowed by its own report-writing `except` — so the message `main`
tests never contains `"Fatal connection error"`: the loop makes exactly
one attempt, sleeps zero times, and synthesizes the degraded history
instead of retrying twice (5 s, 10 s) and ending with `{assistant, "ok"}`
as the claim requires. -/
theorem C4_retry_never_fires :
    fatalConnectionErrors.any
      (fun f => containsSub f "Connection aborted") = true ∧
    (turnErrorHandler "gemini" "user" ⟨"RuntimeError", "Connection aborted"⟩).raised =
      some ⟨"RuntimeError", "Connection aborted"⟩ ∧
    containsSub "Fatal connection error" "Connection aborted" = false ∧
    mainRetryLoop s4Run "p" =
      { conversation :=
          [⟨"system", "p"⟩,
           ⟨"system", "ERROR: Connection aborted - Conversation could not be completed."⟩],
        attemptsMade := 1, sleeps := [], uncaught := none } := by
  refine ⟨by decide, by rfl, by decide, by rfl⟩

/-- C5 counterexample: a non-fatal client error `"boom"` from model
`gemini` on a user turn is recorded as
`"Error with gemini (user): boom"` — the mapped role is interpolated — not
as the claim's `"Error with gemini: boom"`. -/
theorem C5_counterexample :
    (turnErrorHandler "gemini" "user" ⟨"ValueError", "boom"⟩).appended =
      [⟨"system", "Error with gemini (user): boom"⟩] ∧
    (turnErrorHandler "gemini" "user" ⟨"ValueError", "boom"⟩).appended ≠
      [⟨"system", "Error with gemini: boom"⟩] := by
  constructor
  · rfl
  · decide

/-- C5 amended: for every turn whose client call raises an error that
matches none of the fatal substrings, exactly one message with role
`system` and content `"Error with <model> (<mapped role>): <msg>"` is
appended to `conversation_history`, the turn returns `"Error: <msg>"` in
place of a model response, and nothing is raised, so the conversation
loop continues. -/
theorem C5_non_fatal_error_amended (model mapped_role : String) (e : PyError)
    (hnf : fatalConnectionErrors.any (fun f => containsSub f e.msg) = false) :
    turnErrorHandler model mapped_role e =
      { appended :=
          [⟨"system", "Error with " ++ model ++ " (" ++ mapped_role ++ "): " ++ e.msg⟩],
        raised := none,
        returned := some ("Error: " ++ e.msg) } := by
  unfold turnErrorHandler
  simp [hnf]

/-- Witness for C5 amended: the concrete non-fatal error of the
counterexample input. -/
theorem C5_non_fatal_error_amended_witness :
    turnErrorHandler "gemini" "user" ⟨"ValueError", "boom"⟩ =
      { appended := [⟨"system", "Error with gemini (user): boom"⟩],
        raised := none,
        returned := some "Error: boom" } :=
  C5_non_fatal_error_amended "gemini" "user" ⟨"ValueError", "boom"⟩ (by decide)

/-- C7: the attachment reaches every turn, not only the first user turn.
With 2 rounds, all four `run_conversation_turn` calls receive the same
`file_data`; in general every element of the argument list carries it.
This contradicts the claim (and the source's own
`# Only pass file data on first turn` comment). -/
theorem C7_attachment_every_turn :
    fileDataArgs 2 (some "img.png") =
      [("user", some "img.png"), ("assistant", some "img.png"),
       ("user", some "img.png"), ("assistant", some "img.png")] ∧
    ∀ (n : Nat) (fd : Option String),
      (fileDataArgs n fd).all (fun x => x.snd == fd) = true := by
  refine ⟨by decide, ?_⟩
  intro n fd
  induction n with
  | zero => rfl
  | succ m ih => simp [fileDataArgs, ih]

/-- C8: with 1 second elapsed since the last request and the default
2-second `min_delay`, `rate_limited_request` does not sleep the 1-second
difference: it evaluates `io.sleep(min_delay)`, and the `io` module has no
`sleep` attribute, so the call raises `AttributeError` (and
`last_request_time` is never updated).  When the delay has already passed,
no sleep is attempted and the timestamp updates. -/
theorem C8_rate_limiter_broken :
    rateLimitedRequest 1 1 0 defaultMinDelay =
      .error ⟨"AttributeError", "module 'io' has no attribute 'sleep'"⟩ ∧
    defaultMinDelay - (1 - 0) = 1 ∧
    rateLimitedRequest 5 5 0 defaultMinDelay = .ok (5, []) := by
  refine ⟨?_, by norm_num [defaultMinDelay], ?_⟩
  · unfold rateLimitedRequest
    rw [if_pos (by norm_num [defaultMinDelay])]
    rfl
  · unfold rateLimitedRequest
    rw [if_neg (by norm_num [defaultMinDelay])]

/-- C9: neither `OllamaClient.generate_response` nor
`PicoClient.generate_response` mutates the caller's history list: both
rebind their local `history` variable to a fresh slice before appending,
so after the client body runs the caller's list is structurally unchanged
(and no statement of either function writes into the message dicts). -/
theorem C9_client_history_not_mutated (h : List Message) (instr cp : String) :
    (ollamaHistoryOps instr cp ⟨h, h, true⟩).caller = h ∧
    (picoHistoryOps cp ⟨h, h, true⟩).caller = h := by
  unfold ollamaHistoryOps picoHistoryOps appendLocal reassignSliceLast reassignIfFalsy
  by_cases he : h.isEmpty <;> simp [he]
